import Mathlib

/-!
Verification of the schedule-to-events compiler of calenderizer
(src/calenderizer/ics_generator.py) against its specification.

The compiler is embedded shallowly: JSON numbers are rationals, naive
datetimes are rational hours counted from the 0001-01-01 00:00 epoch,
timezone-aware timestamps are rational hours on the UTC timeline, and the
exceptions the Python functions can raise (pytz.UnknownTimeZoneError from
the timezone lookup, ValueError from datetime.strptime) become an Except
error value.  The pytz database itself is external to the repository and
is modelled, as the spec directs, by a capability mapping a zone name to
a fixed UTC offset.
-/

namespace Calenderizer


/-- A task of a schedule entry: duration in hours and a title. -/
structure Task where
  hours : ℚ
  title : String
deriving DecidableEq, Repr

/-- One schedule entry as read from the JSON file: date string, phase
label, optional start-time string, and the ordered task list. -/
structure ScheduleEntry where
  date : String
  phase : String
  start_time : Option String
  tasks : List Task
deriving DecidableEq, Repr

/-- One emitted calendar event.  The dtstamp field written by the code is
the wall-clock creation time and is outside the deterministic model. -/
structure Event where
  summary : String
  description : String
  dtstart : ℚ
  dtend : ℚ
deriving DecidableEq, Repr

/-- Exceptions the compiler can raise: pytz.exceptions.UnknownTimeZoneError
from the timezone lookup, ValueError from datetime.strptime. -/
inductive PyError where
  | unknownTimeZone (tz : String)
  | valueError
deriving DecidableEq, Repr

/-- The timezone capability, abstracting the pytz database: maps an
identifier to its fixed UTC offset in hours, none when unresolvable. -/
abbrev TZDB := String → Option ℚ

/-- Localizing a naive datetime to a zone with UTC offset off yields an
aware timestamp; aware timestamps are measured on the UTC timeline. -/
def localize (naive off : ℚ) : ℚ := naive - off

/-- Python truthiness of an optional string: None and "" are falsy. -/
def pyTruthy : Option String → Bool
  | none => false
  | some s => s != ""

/-- The Python `a or b` expression on optional strings. -/
def pyOr (a b : Option String) : Option String :=
  if pyTruthy a then a else b

/-- Start-time resolution performed by create_events: the expression
`entry.get(start_time) or default_start_time` followed by the falsiness
check that substitutes the "09:00" fallback. -/
def resolveStartTime (st dflt : Option String) : String :=
  match pyOr st dflt with
  | some s => if s = "" then "09:00" else s
  | none => "09:00"

/-- Splits a character list at every occurrence of the separator, the way
the strptime format separators cut "YYYY-MM-DD" and "HH:MM" into fields. -/
def splitCharList (sep : Char) : List Char → List (List Char)
  | [] => [[]]
  | c :: cs =>
    let rest := splitCharList sep cs
    if c = sep then [] :: rest
    else
      match rest with
      | [] => [[c]]
      | g :: gs => (c :: g) :: gs

/-- Numeric value of a digit string. -/
def digitsVal (cs : List Char) : Nat :=
  cs.foldl (fun a c => 10 * a + (c.toNat - 48)) 0

/-- Reads one numeric strptime field: at least one and at most maxLen
digits. -/
def readField (maxLen : Nat) (cs : List Char) : Option Nat :=
  if 1 ≤ cs.length ∧ cs.length ≤ maxLen ∧ cs.all Char.isDigit then
    some (digitsVal cs)
  else none

/-- Gregorian leap-year rule, as implemented by Python datetime. -/
def isLeapYear (y : Nat) : Bool :=
  (y % 4 == 0 && y % 100 != 0) || y % 400 == 0

/-- Length of a month in the proleptic Gregorian calendar. -/
def daysInMonth (y m : Nat) : Nat :=
  if m = 2 then (if isLeapYear y then 29 else 28)
  else if m = 4 ∨ m = 6 ∨ m = 9 ∨ m = 11 then 30
  else 31

/-- Number of leap days in years 1..n. -/
def leapDaysBefore (n : Nat) : Nat := n / 4 - n / 100 + n / 400

/-- Days of year y that precede the first day of month m. -/
def daysBeforeMonth (y m : Nat) : Nat :=
  (List.range (m - 1)).foldl (fun acc k => acc + daysInMonth y (k + 1)) 0

/-- Proleptic Gregorian day ordinal with 0001-01-01 as day 0 (Python's
date.toordinal minus one), the day component of the naive datetime
produced by strptime. -/
def toOrdinal (y m d : Nat) : Nat :=
  365 * (y - 1) + leapDaysBefore (y - 1) + daysBeforeMonth y m + (d - 1)

/-- Models the "%Y-%m-%d" part of datetime.strptime: a 1-4 digit year of
at least 1, a 1-2 digit month 1-12, and a 1-2 digit day that exists in
that month.  Returns the day ordinal; none models the ValueError path. -/
def parseDateYMD (s : String) : Option Nat :=
  match splitCharList '-' s.toList with
  | [ys, ms, ds] =>
    match readField 4 ys, readField 2 ms, readField 2 ds with
    | some y, some m, some d =>
      if 1 ≤ y ∧ 1 ≤ m ∧ m ≤ 12 ∧ 1 ≤ d ∧ d ≤ daysInMonth y m then
        some (toOrdinal y m d)
      else none
    | _, _, _ => none
  | _ => none

/-- Models the "%H:%M" tail of the strptime format: a 1-2 digit hour 0-23
and a 1-2 digit minute 0-59.  The literal blank of the format matches a
whitespace run, so leading whitespace before the hour field is accepted. -/
def parseHM (s : String) : Option (Nat × Nat) :=
  match splitCharList ':' s.toList with
  | [hsRaw, ms] =>
    let hs := hsRaw.dropWhile Char.isWhitespace
    match readField 2 hs, readField 2 ms with
    | some h, some m => if h ≤ 23 ∧ m ≤ 59 then some (h, m) else none
    | _, _ => none
  | _ => none

/-- Models datetime.strptime(date ++ " " ++ time, "%Y-%m-%d %H:%M") as an
optional naive timestamp in hours from the 0001-01-01 00:00 epoch; none
models the ValueError strptime raises on a mismatch. -/
def strptimeDateHM (dateStr timeStr : String) : Option ℚ :=
  match parseDateYMD dateStr, parseHM timeStr with
  | some ord, some hm => some (24 * (ord : ℚ) + (hm.1 : ℚ) + (hm.2 : ℚ) / 60)
  | _, _ => none

/-- Zero-pads a digit string on the left to width k. -/
def padZeros (s : String) (k : Nat) : String :=
  String.mk (List.replicate (k - s.length) '0') ++ s

/-- Smallest number of decimal digits after the point that makes q
integral, when one of at most 17 exists. -/
def decDigits (q : ℚ) : Option Nat :=
  (List.range 18).find? fun k => (q * (10 : ℚ) ^ k).den == 1

/-- Python str() of the numeric hours value as interpolated by format_task:
integer values print without a decimal point, decimally representable
fractions with one.  A rational with no finite decimal expansion has no
exact float counterpart (never produced by decimal JSON input) and falls
back to the num/den form. -/
def hoursRepr (q : ℚ) : String :=
  if q.den = 1 then toString q.num
  else
    match decDigits q with
    | some k =>
      let sgn := if q < 0 then "-" else ""
      let m := (q * (10 : ℚ) ^ k).num.natAbs
      sgn ++ toString (m / 10 ^ k) ++ "." ++ padZeros (toString (m % 10 ^ k)) k
    | none => toString q

/-- Translation of format_task: a position-dependent marker emoji followed
by the hours and the title. -/
def format_task (task : Task) (task_number total_tasks : Nat) : String :=
  let emoji :=
    if task_number = 1 then "🎯"
    else if task_number = total_tasks then "🏁"
    else "⚡"
  emoji ++ " " ++ hoursRepr task.hours ++ " hrs: " ++ task.title

/-- The event-emitting loop of create_events: walks the tasks with a
running cursor and 1-based position i, emits one event per task, and
advances the cursor by the task duration plus the buffer.  Event fields
in order: summary, description, dtstart, dtend. -/
def eventsLoop (phase : String) (total : Nat) (buffer_hours : ℚ) :
    Nat → ℚ → List Task → List Event
  | _, _, [] => []
  | i, current_start, task :: rest =>
    ⟨phase ++ ": " ++ task.title, format_task task i total,
      current_start, current_start + task.hours⟩ ::
      eventsLoop phase total buffer_hours (i + 1)
        (current_start + task.hours + buffer_hours) rest

/-- Translation of create_events: resolve the timezone (an unknown
identifier raises UnknownTimeZoneError before anything else), resolve the
start-time string, parse date plus start time (a mismatch raises
ValueError), localize, then run the task loop. -/
def create_events (tzdb : TZDB) (entry : ScheduleEntry) (timezone_str : String)
    (default_start_time : Option String) (buffer_hours : ℚ) :
    Except PyError (List Event) :=
  match tzdb timezone_str with
  | none => .error (.unknownTimeZone timezone_str)
  | some off =>
    match strptimeDateHM entry.date
        (resolveStartTime entry.start_time default_start_time) with
    | none => .error .valueError
    | some naive =>
      .ok (eventsLoop entry.phase entry.tasks.length buffer_hours 1
        (localize naive off) entry.tasks)

/-- Sequential expansion done by the loop inside create_calendar: the
first exception aborts the whole run, as in Python, where it propagates
out of the loop so that no calendar is produced at all. -/
def expandAll (tzdb : TZDB) (timezone_str : String)
    (default_start_time : Option String) (buffer_hours : ℚ) :
    List ScheduleEntry → Except PyError (List Event)
  | [] => .ok []
  | entry :: rest =>
    match create_events tzdb entry timezone_str default_start_time buffer_hours with
    | .error e => .error e
    | .ok evs =>
      match expandAll tzdb timezone_str default_start_time buffer_hours rest with
      | .error e => .error e
      | .ok more => .ok (evs ++ more)

/-- The calendar document: product identifier, version marker, and the
event components, in insertion order. -/
structure Calendar where
  prodid : String
  version : String
  components : List Event
deriving DecidableEq, Repr

/-- Translation of create_calendar: fixed document metadata plus every
event of every entry, concatenated in entry order. -/
def create_calendar (tzdb : TZDB) (schedule : List ScheduleEntry)
    (timezone_str : String) (default_start_time : Option String)
    (buffer_hours : ℚ) : Except PyError Calendar :=
  match expandAll tzdb timezone_str default_start_time buffer_hours schedule with
  | .error e => .error e
  | .ok evs =>
    .ok ⟨"-//Geocodio Python Library Project Calendar//", "2.0", evs⟩

/-- The events an entry contributes to a successfully built calendar. -/
def entryEvents (tzdb : TZDB) (timezone_str : String)
    (default_start_time : Option String) (buffer_hours : ℚ)
    (entry : ScheduleEntry) : List Event :=
  match create_events tzdb entry timezone_str default_start_time buffer_hours with
  | .ok evs => evs
  | .error _ => []

/-- Marker selection as the specification words it: the first-task marker
at position 1, the last-task marker at the final position of a multi-task
list, the middle-task marker otherwise. -/
def markerOfPosition (p n : Nat) : String :=
  if p = 1 then "🎯"
  else if p = n ∧ 1 < n then "🏁"
  else "⚡"

/-- Start-time resolution keyed on field presence alone, as the claim
words it, for comparison against the truthiness-based resolution the code
performs. -/
def resolveStartTimePresence (st dflt : Option String) : String :=
  match st with
  | some s => s
  | none =>
    match dflt with
    | some d => d
    | none => "09:00"

/-- Resolution of the default start time by non-emptiness, the tail of the
amended chain. -/
def resolveDefault : Option String → String
  | some d => if d = "" then "09:00" else d
  | none => "09:00"

/-- The amended resolution chain: a present and non-empty start_time wins,
else a present and non-empty default, else the 09:00 fallback. -/
def resolveChainNonEmpty (st dflt : Option String) : String :=
  match st with
  | some s => if s = "" then resolveDefault dflt else s
  | none => resolveDefault dflt

/-- Timezone capability holding the single zone UTC at offset zero. -/
def utcOnly : TZDB := fun s => if s = "UTC" then some 0 else none

/-- Aware UTC timestamp (offset zero) of a wall-clock time on a date. -/
def awareUTC (y m d hh mm : Nat) : ℚ :=
  24 * (toOrdinal y m d : ℚ) + (hh : ℚ) + (mm : ℚ) / 60

/-- Scenario A entry of the specification. -/
def scenarioAEntry : ScheduleEntry :=
  ⟨"2025-04-01", "🔵 Test", some "11:00",
   [⟨4, "First"⟩, ⟨2, "Second"⟩, ⟨3, "Third"⟩]⟩

/-- Scenario B single-task entry. -/
def scenarioBEntry : ScheduleEntry :=
  ⟨"2025-04-01", "B", some "09:00", [⟨4, "Solo"⟩]⟩

/-- Two-task witness entry at the epoch date and midnight. -/
def w2Entry : ScheduleEntry :=
  ⟨"0001-01-01", "P", some "00:00", [⟨1, "A"⟩, ⟨2, "B"⟩]⟩

/-- First event of the two-task witness entry, buffer 1. -/
def w2E1 : Event := ⟨"P: A", "🎯 1 hrs: A", 0, 1⟩

/-- Second event of the two-task witness entry, buffer 1. -/
def w2E2 : Event := ⟨"P: B", "🏁 2 hrs: B", 2, 4⟩

/-- Events of the two-task witness entry, buffer 1. -/
def w2Evs : List Event := [w2E1, w2E2]

/-- Second witness entry, one task on the day after the epoch. -/
def wBEntry : ScheduleEntry := ⟨"0001-01-02", "Q", some "00:00", [⟨1, "C"⟩]⟩

/-- The event of the one-task witness entry. -/
def wBE1 : Event := ⟨"Q: C", "🎯 1 hrs: C", 24, 25⟩

/-- Witness calendar built from the two witness entries. -/
def wCal : Calendar :=
  ⟨"-//Geocodio Python Library Project Calendar//", "2.0", [w2E1, w2E2, wBE1]⟩

/-- Entry with a present but empty start_time, refuting the presence-keyed
resolution chain. -/
def c4Entry : ScheduleEntry := ⟨"0001-01-01", "P", some "", [⟨1, "A"⟩]⟩

/-- Entry without a start_time field used to instantiate the fallback
scenarios. -/
def c4WEntry : ScheduleEntry := ⟨"0001-01-01", "P", none, [⟨1, "A"⟩]⟩

/-- Entry with an empty task list. -/
def emptyTasksEntry : ScheduleEntry := ⟨"0001-01-01", "P", some "00:00", []⟩

/-- Entry whose single task has zero hours. -/
def zeroHoursEntry : ScheduleEntry := ⟨"0001-01-01", "P", some "00:00", [⟨0, "Z"⟩]⟩

/-- Entry with a present but empty start_time. -/
def c10Entry : ScheduleEntry := ⟨"0001-01-01", "P", some "", [⟨1, "A"⟩]⟩

theorem eventsLoop_length (phase : String) (total : Nat) (buf : ℚ) :
    ∀ (ts : List Task) (i : Nat) (cur : ℚ),
      (eventsLoop phase total buf i cur ts).length = ts.length := by
  intro ts
  induction ts with
  | nil => intro i cur; rfl
  | cons t rest ih => intro i cur; simp [eventsLoop, ih]

theorem eventsLoop_adjacent (phase : String) (total : Nat) (buf : ℚ) :
    ∀ (ts : List Task) (i : Nat) (cur : ℚ) (j : Nat) (e1 e2 : Event),
      (eventsLoop phase total buf i cur ts)[j]? = some e1 →
      (eventsLoop phase total buf i cur ts)[j + 1]? = some e2 →
      e2.dtstart = e1.dtend + buf := by
  intro ts
  induction ts with
  | nil => intro i cur j e1 e2 h1 h2; simp [eventsLoop] at h1
  | cons t rest ih =>
    intro i cur j e1 e2 h1 h2
    cases j with
    | zero =>
      simp only [eventsLoop, List.getElem?_cons_zero, Option.some.injEq] at h1
      simp only [eventsLoop, List.getElem?_cons_succ] at h2
      subst h1
      cases rest with
      | nil => simp [eventsLoop] at h2
      | cons t2 r2 =>
        simp only [eventsLoop, List.getElem?_cons_zero, Option.some.injEq] at h2
        subst h2
        rfl
    | succ jj =>
      simp only [eventsLoop, List.getElem?_cons_succ] at h1 h2
      exact ih (i + 1) (cur + t.hours + buf) jj e1 e2 h1 h2

theorem eventsLoop_fields (phase : String) (total : Nat) (buf : ℚ) :
    ∀ (ts : List Task) (i : Nat) (cur : ℚ) (j : Nat) (t : Task) (e : Event),
      ts[j]? = some t →
      (eventsLoop phase total buf i cur ts)[j]? = some e →
      e.summary = phase ++ ": " ++ t.title ∧
      e.description = format_task t (i + j) total ∧
      e.dtend = e.dtstart + t.hours := by
  intro ts
  induction ts with
  | nil => intro i cur j t e ht he; simp at ht
  | cons t0 rest ih =>
    intro i cur j t e ht he
    cases j with
    | zero =>
      simp only [List.getElem?_cons_zero, Option.some.injEq] at ht
      simp only [eventsLoop, List.getElem?_cons_zero, Option.some.injEq] at he
      subst ht; subst he
      exact ⟨rfl, by simp, rfl⟩
    | succ jj =>
      simp only [List.getElem?_cons_succ] at ht
      simp only [eventsLoop, List.getElem?_cons_succ] at he
      obtain ⟨hs, hd, hh⟩ := ih (i + 1) (cur + t0.hours + buf) jj t e ht he
      refine ⟨hs, ?_, hh⟩
      rw [hd]
      have harith : i + 1 + jj = i + (jj + 1) := by omega
      rw [harith]

theorem create_events_ok_elim (tzdb : TZDB) (entry : ScheduleEntry)
    (tzs : String) (dflt : Option String) (buf : ℚ) (evs : List Event)
    (h : create_events tzdb entry tzs dflt buf = .ok evs) :
    ∃ off naive, tzdb tzs = some off ∧
      strptimeDateHM entry.date (resolveStartTime entry.start_time dflt) = some naive ∧
      evs = eventsLoop entry.phase entry.tasks.length buf 1 (localize naive off) entry.tasks := by
  revert h
  unfold create_events
  cases htz : tzdb tzs with
  | none => intro h; cases h
  | some off =>
    cases hsp : strptimeDateHM entry.date (resolveStartTime entry.start_time dflt) with
    | none => intro h; cases h
    | some naive =>
      intro h
      injection h with h
      exact ⟨off, naive, rfl, rfl, h.symm⟩

theorem create_events_length (tzdb : TZDB) (entry : ScheduleEntry)
    (tzs : String) (dflt : Option String) (buf : ℚ) (evs : List Event)
    (h : create_events tzdb entry tzs dflt buf = .ok evs) :
    evs.length = entry.tasks.length := by
  obtain ⟨off, naive, -, -, rfl⟩ := create_events_ok_elim tzdb entry tzs dflt buf evs h
  exact eventsLoop_length _ _ _ _ _ _

theorem expandAll_ok (tzdb : TZDB) (tzs : String) (dflt : Option String) (buf : ℚ) :
    ∀ (sched : List ScheduleEntry) (evs : List Event),
      expandAll tzdb tzs dflt buf sched = .ok evs →
      evs = (sched.map (entryEvents tzdb tzs dflt buf)).flatten ∧
      ∀ entry ∈ sched, ∃ es, create_events tzdb entry tzs dflt buf = .ok es := by
  intro sched
  induction sched with
  | nil =>
    intro evs h
    simp only [expandAll] at h
    injection h with h
    subst h
    simp
  | cons entry rest ih =>
    intro evs h
    simp only [expandAll] at h
    cases hce : create_events tzdb entry tzs dflt buf with
    | error e => rw [hce] at h; cases h
    | ok es =>
      rw [hce] at h
      cases hre : expandAll tzdb tzs dflt buf rest with
      | error e => rw [hre] at h; cases h
      | ok more =>
        rw [hre] at h
        injection h with h
        subst h
        obtain ⟨hflat, hall⟩ := ih more hre
        constructor
        · simp [entryEvents, hce, hflat]
        · intro en hen
          rcases List.mem_cons.mp hen with rfl | hmem
          · exact ⟨es, hce⟩
          · exact hall en hmem

theorem w2_ok : create_events utcOnly w2Entry "UTC" none 1 = .ok w2Evs := by
  have h1 : parseDateYMD "0001-01-01" = some 0 := by decide
  have h2 : parseHM "00:00" = some (0, 0) := by decide
  have h4 : toString (1 : Int) = "1" := by decide
  have h5 : toString (2 : Int) = "2" := by decide
  simp [create_events, w2Entry, utcOnly, resolveStartTime, pyOr, pyTruthy,
    strptimeDateHM, h1, h2, eventsLoop, format_task, hoursRepr, localize,
    w2Evs, w2E1, w2E2, h4, h5]
  norm_num

theorem wB_ok : create_events utcOnly wBEntry "UTC" none 1 = .ok [wBE1] := by
  have h1 : parseDateYMD "0001-01-02" = some 1 := by decide
  have h2 : parseHM "00:00" = some (0, 0) := by decide
  have h4 : toString (1 : Int) = "1" := by decide
  simp [create_events, wBEntry, utcOnly, resolveStartTime, pyOr, pyTruthy,
    strptimeDateHM, h1, h2, eventsLoop, format_task, hoursRepr, localize, wBE1, h4]
  norm_num

/-- C1: within one schedule entry, every pair of adjacent events emitted by
create_events satisfies next start = previous end + buffer; the cursor
advance after the last task touches no emitted event. -/
theorem c1_adjacent_buffer (tzdb : TZDB) (entry : ScheduleEntry)
    (tzs : String) (dflt : Option String) (buf : ℚ) (evs : List Event)
    (h : create_events tzdb entry tzs dflt buf = .ok evs)
    (j : Nat) (e1 e2 : Event)
    (h1 : evs[j]? = some e1) (h2 : evs[j + 1]? = some e2) :
    e2.dtstart = e1.dtend + buf := by
  obtain ⟨off, naive, -, -, rfl⟩ := create_events_ok_elim tzdb entry tzs dflt buf evs h
  exact eventsLoop_adjacent _ _ _ _ _ _ j e1 e2 h1 h2

theorem c1_adjacent_buffer_witness :
    (create_events utcOnly w2Entry "UTC" none 1 = .ok w2Evs ∧
      w2Evs[0]? = some w2E1 ∧ w2Evs[1]? = some w2E2) ∧
    w2E2.dtstart = w2E1.dtend + 1 :=
  ⟨⟨w2_ok, rfl, rfl⟩,
    c1_adjacent_buffer utcOnly w2Entry "UTC" none 1 w2Evs w2_ok 0 w2E1 w2E2 rfl rfl⟩

/-- C2: create_events emits one event per task, and each event's end minus
its start is exactly the hours of its task, for arbitrary rational hours. -/
theorem c2_duration (tzdb : TZDB) (entry : ScheduleEntry)
    (tzs : String) (dflt : Option String) (buf : ℚ) (evs : List Event)
    (h : create_events tzdb entry tzs dflt buf = .ok evs) :
    evs.length = entry.tasks.length ∧
    ∀ (j : Nat) (t : Task) (e : Event),
      entry.tasks[j]? = some t → evs[j]? = some e →
      e.dtend - e.dtstart = t.hours := by
  obtain ⟨off, naive, -, -, rfl⟩ := create_events_ok_elim tzdb entry tzs dflt buf evs h
  refine ⟨eventsLoop_length _ _ _ _ _ _, ?_⟩
  intro j t e ht he
  have hf := (eventsLoop_fields _ _ _ _ _ _ j t e ht he).2.2
  rw [hf]; ring

theorem c2_duration_witness :
    create_events utcOnly w2Entry "UTC" none 1 = .ok w2Evs ∧
    (w2Evs.length = w2Entry.tasks.length ∧
      ∀ (j : Nat) (t : Task) (e : Event),
        w2Entry.tasks[j]? = some t → w2Evs[j]? = some e →
        e.dtend - e.dtstart = t.hours) :=
  ⟨w2_ok, c2_duration utcOnly w2Entry "UTC" none 1 w2Evs w2_ok⟩

/-- C3: Scenario A, entry of 2025-04-01 starting 11:00 UTC with tasks of
4, 2 and 3 hours and buffer one half, yields exactly the three events
11:00-15:00, 15:30-17:30 and 18:00-21:00 of that date, with first, middle
and last markers opening the three descriptions. -/
theorem c3_scenarioA :
    create_events utcOnly scenarioAEntry "UTC" none (1/2) = .ok
      [⟨"🔵 Test: First", "🎯 4 hrs: First", awareUTC 2025 4 1 11 0, awareUTC 2025 4 1 15 0⟩,
       ⟨"🔵 Test: Second", "⚡ 2 hrs: Second", awareUTC 2025 4 1 15 30, awareUTC 2025 4 1 17 30⟩,
       ⟨"🔵 Test: Third", "🏁 3 hrs: Third", awareUTC 2025 4 1 18 0, awareUTC 2025 4 1 21 0⟩] := by
  have h1 : parseDateYMD "2025-04-01" = some 739341 := by decide
  have h2 : parseHM "11:00" = some (11, 0) := by decide
  have h3 : toOrdinal 2025 4 1 = 739341 := by decide
  have h4 : toString (4 : Int) = "4" := by decide
  have h5 : toString (2 : Int) = "2" := by decide
  have h6 : toString (3 : Int) = "3" := by decide
  simp [create_events, scenarioAEntry, utcOnly, resolveStartTime, pyOr, pyTruthy,
    strptimeDateHM, h1, h2, eventsLoop, format_task, hoursRepr, localize, awareUTC, h3,
    h4, h5, h6]
  norm_num

/-- C4 counterexample: with start_time present but empty and default
"10:00", the presence-keyed chain of the claim picks the empty string,
while the code resolves to the default and emits an event at 10:00. -/
theorem c4_counterexample :
    resolveStartTime (some "") (some "10:00") = "10:00" ∧
    resolveStartTimePresence (some "") (some "10:00") = "" ∧
    create_events utcOnly c4Entry "UTC" (some "10:00") 1 =
      .ok [⟨"P: A", "🎯 1 hrs: A", 10, 11⟩] := by
  refine ⟨by decide, by decide, ?_⟩
  have h1 : parseDateYMD "0001-01-01" = some 0 := by decide
  have h2 : parseHM "10:00" = some (10, 0) := by decide
  have h4 : toString (1 : Int) = "1" := by decide
  simp [create_events, c4Entry, utcOnly, resolveStartTime, pyOr, pyTruthy,
    strptimeDateHM, h1, h2, eventsLoop, format_task, hoursRepr, localize, h4]
  norm_num

/-- C4 amended: the effective start time follows the chain keyed on
non-emptiness rather than presence; an entry lacking start_time with
default "10:00" yields a first event at 10:00 local on its date, with no
default at 09:00, and no error is raised in either fallback. -/
theorem c4_amended (tzdb : TZDB) (entry : ScheduleEntry) (tzs : String)
    (off : ℚ) (n : Nat) (buf : ℚ) (t : Task) (rest : List Task)
    (htz : tzdb tzs = some off)
    (hst : entry.start_time = none)
    (hd : parseDateYMD entry.date = some n)
    (hts : entry.tasks = t :: rest) :
    (∀ st dflt : Option String,
      resolveStartTime st dflt = resolveChainNonEmpty st dflt) ∧
    (∃ e evs, create_events tzdb entry tzs (some "10:00") buf = .ok (e :: evs) ∧
      e.dtstart = localize (24 * (n : ℚ) + 10) off) ∧
    (∃ e evs, create_events tzdb entry tzs none buf = .ok (e :: evs) ∧
      e.dtstart = localize (24 * (n : ℚ) + 9) off) := by
  refine ⟨?_, ?_, ?_⟩
  · intro st dflt
    cases st with
    | none =>
      cases dflt with
      | none => rfl
      | some d =>
        by_cases hdne : d = "" <;>
          simp [resolveStartTime, pyOr, pyTruthy, resolveChainNonEmpty, resolveDefault, hdne]
    | some s =>
      by_cases hsne : s = ""
      · subst hsne
        cases dflt with
        | none => rfl
        | some d =>
          by_cases hdne : d = "" <;>
            simp [resolveStartTime, pyOr, pyTruthy, resolveChainNonEmpty, resolveDefault, hdne]
      · simp [resolveStartTime, pyOr, pyTruthy, resolveChainNonEmpty, resolveDefault, hsne]
  · have hres : resolveStartTime entry.start_time (some "10:00") = "10:00" := by
      rw [hst]; decide
    have hhm : parseHM "10:00" = some (10, 0) := by decide
    have hsp : strptimeDateHM entry.date (resolveStartTime entry.start_time (some "10:00")) =
        some (24 * (n : ℚ) + 10) := by
      rw [hres]; simp [strptimeDateHM, hd, hhm]
    have hce : create_events tzdb entry tzs (some "10:00") buf =
        .ok (eventsLoop entry.phase entry.tasks.length buf 1
          (localize (24 * (n : ℚ) + 10) off) entry.tasks) := by
      simp only [create_events, htz, hsp]
    rw [hts] at hce
    simp only [eventsLoop] at hce
    exact ⟨_, _, hce, rfl⟩
  · have hres : resolveStartTime entry.start_time none = "09:00" := by
      rw [hst]; decide
    have hhm : parseHM "09:00" = some (9, 0) := by decide
    have hsp : strptimeDateHM entry.date (resolveStartTime entry.start_time none) =
        some (24 * (n : ℚ) + 9) := by
      rw [hres]; simp [strptimeDateHM, hd, hhm]
    have hce : create_events tzdb entry tzs none buf =
        .ok (eventsLoop entry.phase entry.tasks.length buf 1
          (localize (24 * (n : ℚ) + 9) off) entry.tasks) := by
      simp only [create_events, htz, hsp]
    rw [hts] at hce
    simp only [eventsLoop] at hce
    exact ⟨_, _, hce, rfl⟩

theorem c4_amended_witness :
    (utcOnly "UTC" = some 0 ∧ c4WEntry.start_time = none ∧
      parseDateYMD c4WEntry.date = some 0 ∧ c4WEntry.tasks = [⟨1, "A"⟩]) ∧
    ((∀ st dflt : Option String,
      resolveStartTime st dflt = resolveChainNonEmpty st dflt) ∧
    (∃ e evs, create_events utcOnly c4WEntry "UTC" (some "10:00") 1 = .ok (e :: evs) ∧
      e.dtstart = localize (24 * ((0 : Nat) : ℚ) + 10) 0) ∧
    (∃ e evs, create_events utcOnly c4WEntry "UTC" none 1 = .ok (e :: evs) ∧
      e.dtstart = localize (24 * ((0 : Nat) : ℚ) + 9) 0)) :=
  ⟨⟨by decide, rfl, by decide, rfl⟩,
    c4_amended utcOnly c4WEntry "UTC" 0 0 1 ⟨1, "A"⟩ [] (by decide) rfl (by decide) rfl⟩

/-- C5: format_task renders marker, hours and title in the claimed shape
with the marker chosen by the claimed position rule (first marker wins for
a single-task entry), and Scenario B yields exactly one event 09:00-13:00
carrying the first-task marker. -/
theorem c5_format_task (task : Task) (p n : Nat) (hp : 1 ≤ p) (_hn : p ≤ n) :
    format_task task p n =
      markerOfPosition p n ++ " " ++ hoursRepr task.hours ++ " hrs: " ++ task.title ∧
    create_events utcOnly scenarioBEntry "UTC" none (1/2) = .ok
      [⟨"B: Solo", "🎯 4 hrs: Solo", awareUTC 2025 4 1 9 0, awareUTC 2025 4 1 13 0⟩] := by
  constructor
  · unfold format_task markerOfPosition
    by_cases hp1 : p = 1
    · simp [hp1]
    · by_cases hpn : p = n
      · have h1n : 1 < n := by omega
        simp [hp1, hpn, h1n]
      · simp [hp1, hpn]
  · have h1 : parseDateYMD "2025-04-01" = some 739341 := by decide
    have h2 : parseHM "09:00" = some (9, 0) := by decide
    have h3 : toOrdinal 2025 4 1 = 739341 := by decide
    have h4 : toString (4 : Int) = "4" := by decide
    simp [create_events, scenarioBEntry, utcOnly, resolveStartTime, pyOr, pyTruthy,
      strptimeDateHM, h1, h2, eventsLoop, format_task, hoursRepr, localize, awareUTC,
      h3, h4]
    norm_num

theorem c5_format_task_witness :
    (1 ≤ 1 ∧ (1 : Nat) ≤ 1) ∧
    (format_task ⟨4, "Solo"⟩ 1 1 =
      markerOfPosition 1 1 ++ " " ++ hoursRepr (⟨4, "Solo"⟩ : Task).hours ++ " hrs: " ++
        (⟨4, "Solo"⟩ : Task).title ∧
    create_events utcOnly scenarioBEntry "UTC" none (1/2) = .ok
      [⟨"B: Solo", "🎯 4 hrs: Solo", awareUTC 2025 4 1 9 0, awareUTC 2025 4 1 13 0⟩]) :=
  ⟨⟨le_refl 1, le_refl 1⟩, c5_format_task ⟨4, "Solo"⟩ 1 1 (le_refl 1) (le_refl 1)⟩

/-- C6: a successfully compiled calendar carries exactly the sum of the
per-entry task counts as events, laid out as the order-preserving
concatenation of the per-entry expansions with no buffer joining entries,
and every event summary is the phase-colon-title of its task. -/
theorem c6_compile (tzdb : TZDB) (schedule : List ScheduleEntry)
    (tzs : String) (dflt : Option String) (buf : ℚ) (cal : Calendar)
    (h : create_calendar tzdb schedule tzs dflt buf = .ok cal) :
    cal.components.length = (schedule.map (fun e => e.tasks.length)).sum ∧
    cal.components = (schedule.map (entryEvents tzdb tzs dflt buf)).flatten ∧
    ∀ entry ∈ schedule, ∀ (evs : List Event),
      create_events tzdb entry tzs dflt buf = .ok evs →
      ∀ (j : Nat) (t : Task) (e : Event),
        entry.tasks[j]? = some t → evs[j]? = some e →
        e.summary = entry.phase ++ ": " ++ t.title := by
  have hexp : expandAll tzdb tzs dflt buf schedule = .ok cal.components := by
    revert h
    unfold create_calendar
    cases hx : expandAll tzdb tzs dflt buf schedule with
    | error e => intro h; cases h
    | ok evs => intro h; injection h with h; rw [← h]
  obtain ⟨hflat, hall⟩ := expandAll_ok tzdb tzs dflt buf schedule cal.components hexp
  refine ⟨?_, hflat, ?_⟩
  · rw [hflat, List.length_flatten, List.map_map]
    congr 1
    apply List.map_congr_left
    intro en hen
    obtain ⟨es, hes⟩ := hall en hen
    simp [Function.comp, entryEvents, hes,
      create_events_length tzdb en tzs dflt buf es hes]
  · intro en hen evs hevs j t e ht he
    obtain ⟨off, naive, -, -, rfl⟩ :=
      create_events_ok_elim tzdb en tzs dflt buf evs hevs
    exact (eventsLoop_fields _ _ _ _ _ _ j t e ht he).1

theorem c6_compile_witness :
    create_calendar utcOnly [w2Entry, wBEntry] "UTC" none 1 = .ok wCal ∧
    (wCal.components.length =
        (([w2Entry, wBEntry] : List ScheduleEntry).map (fun e => e.tasks.length)).sum ∧
      wCal.components =
        (([w2Entry, wBEntry] : List ScheduleEntry).map (entryEvents utcOnly "UTC" none 1)).flatten ∧
      ∀ entry ∈ ([w2Entry, wBEntry] : List ScheduleEntry), ∀ (evs : List Event),
        create_events utcOnly entry "UTC" none 1 = .ok evs →
        ∀ (j : Nat) (t : Task) (e : Event),
          entry.tasks[j]? = some t → evs[j]? = some e →
          e.summary = entry.phase ++ ": " ++ t.title) := by
  have hcal : create_calendar utcOnly [w2Entry, wBEntry] "UTC" none 1 = .ok wCal := by
    simp [create_calendar, expandAll, w2_ok, wB_ok, wCal, w2Evs]
  exact ⟨hcal, c6_compile utcOnly [w2Entry, wBEntry] "UTC" none 1 wCal hcal⟩

/-- C7 counterexample: an entry with an empty task list raises nothing:
create_events returns ok with zero events, and a batch containing it
still compiles, producing the events of the other entries. -/
theorem c7_counterexample :
    create_events utcOnly emptyTasksEntry "UTC" none 1 = .ok [] ∧
    create_calendar utcOnly [emptyTasksEntry, w2Entry] "UTC" none 1 =
      .ok ⟨"-//Geocodio Python Library Project Calendar//", "2.0", w2Evs⟩ := by
  have h1 : parseDateYMD "0001-01-01" = some 0 := by decide
  have h2 : parseHM "00:00" = some (0, 0) := by decide
  have hce : create_events utcOnly emptyTasksEntry "UTC" none 1 = .ok [] := by
    simp [create_events, emptyTasksEntry, utcOnly, resolveStartTime, pyOr, pyTruthy,
      strptimeDateHM, h1, h2, eventsLoop, localize]
  refine ⟨hce, ?_⟩
  simp [create_calendar, expandAll, hce, w2_ok]

/-- C7 amended: the code performs no task-list validation; when timezone
and start time resolve, an empty-task entry yields ok with no events, and
the batch skips past it rather than failing. -/
theorem c7_amended (tzdb : TZDB) (entry : ScheduleEntry) (tzs : String)
    (dflt : Option String) (buf : ℚ) (off naive : ℚ)
    (htz : tzdb tzs = some off)
    (hsp : strptimeDateHM entry.date (resolveStartTime entry.start_time dflt) = some naive)
    (hts : entry.tasks = []) :
    create_events tzdb entry tzs dflt buf = .ok [] ∧
    ∀ rest : List ScheduleEntry,
      expandAll tzdb tzs dflt buf (entry :: rest) = expandAll tzdb tzs dflt buf rest := by
  have hce : create_events tzdb entry tzs dflt buf = .ok [] := by
    simp [create_events, htz, hsp, hts, eventsLoop]
  refine ⟨hce, fun rest => ?_⟩
  simp only [expandAll, hce]
  cases expandAll tzdb tzs dflt buf rest <;> simp

theorem c7_amended_witness :
    (utcOnly "UTC" = some 0 ∧
      strptimeDateHM emptyTasksEntry.date
        (resolveStartTime emptyTasksEntry.start_time none) = some 0 ∧
      emptyTasksEntry.tasks = []) ∧
    (create_events utcOnly emptyTasksEntry "UTC" none 1 = .ok [] ∧
      ∀ rest : List ScheduleEntry,
        expandAll utcOnly "UTC" none 1 (emptyTasksEntry :: rest) =
          expandAll utcOnly "UTC" none 1 rest) := by
  have hsp : strptimeDateHM emptyTasksEntry.date
      (resolveStartTime emptyTasksEntry.start_time none) = some 0 := by
    have h1 : parseDateYMD "0001-01-01" = some 0 := by decide
    have h2 : parseHM "00:00" = some (0, 0) := by decide
    simp [emptyTasksEntry, resolveStartTime, pyOr, pyTruthy, strptimeDateHM, h1, h2]
  exact ⟨⟨by decide, hsp, rfl⟩,
    c7_amended utcOnly emptyTasksEntry "UTC" none 1 0 0 (by decide) hsp rfl⟩

/-- C8 counterexample: a zero-hours task is not rejected; compilation
succeeds and the emitted event has its end equal to its start. -/
theorem c8_counterexample :
    create_events utcOnly zeroHoursEntry "UTC" none 1 =
      .ok [⟨"P: Z", "🎯 0 hrs: Z", 0, 0⟩] := by
  have h1 : parseDateYMD "0001-01-01" = some 0 := by decide
  have h2 : parseHM "00:00" = some (0, 0) := by decide
  have h4 : toString (0 : Int) = "0" := by decide
  simp [create_events, zeroHoursEntry, utcOnly, resolveStartTime, pyOr, pyTruthy,
    strptimeDateHM, h1, h2, eventsLoop, format_task, hoursRepr, localize, h4]

/-- C8 amended: hours are not validated; every emitted event has end =
start + hours, so a task with zero or negative hours yields an event
whose end does not lie after its start. -/
theorem c8_amended (tzdb : TZDB) (entry : ScheduleEntry) (tzs : String)
    (dflt : Option String) (buf : ℚ) (evs : List Event)
    (h : create_events tzdb entry tzs dflt buf = .ok evs)
    (j : Nat) (t : Task) (e : Event)
    (ht : entry.tasks[j]? = some t) (he : evs[j]? = some e) :
    e.dtend = e.dtstart + t.hours ∧ (t.hours ≤ 0 → e.dtend ≤ e.dtstart) := by
  obtain ⟨off, naive, -, -, rfl⟩ := create_events_ok_elim tzdb entry tzs dflt buf evs h
  have hf := (eventsLoop_fields _ _ _ _ _ _ j t e ht he).2.2
  exact ⟨hf, fun hle => by rw [hf]; linarith⟩

theorem c8_amended_witness :
    (create_events utcOnly zeroHoursEntry "UTC" none 1 =
        .ok [⟨"P: Z", "🎯 0 hrs: Z", 0, 0⟩] ∧
      zeroHoursEntry.tasks[0]? = some ⟨0, "Z"⟩ ∧
      ([(⟨"P: Z", "🎯 0 hrs: Z", 0, 0⟩ : Event)])[0]? = some ⟨"P: Z", "🎯 0 hrs: Z", 0, 0⟩) ∧
    ((⟨"P: Z", "🎯 0 hrs: Z", 0, 0⟩ : Event).dtend =
        (⟨"P: Z", "🎯 0 hrs: Z", 0, 0⟩ : Event).dtstart + (⟨(0 : ℚ), "Z"⟩ : Task).hours ∧
      ((⟨(0 : ℚ), "Z"⟩ : Task).hours ≤ 0 →
        (⟨"P: Z", "🎯 0 hrs: Z", 0, 0⟩ : Event).dtend ≤
          (⟨"P: Z", "🎯 0 hrs: Z", 0, 0⟩ : Event).dtstart)) := by
  have hok : create_events utcOnly zeroHoursEntry "UTC" none 1 =
      .ok [⟨"P: Z", "🎯 0 hrs: Z", 0, 0⟩] := by
    have h1 : parseDateYMD "0001-01-01" = some 0 := by decide
    have h2 : parseHM "00:00" = some (0, 0) := by decide
    have h4 : toString (0 : Int) = "0" := by decide
    simp [create_events, zeroHoursEntry, utcOnly, resolveStartTime, pyOr, pyTruthy,
      strptimeDateHM, h1, h2, eventsLoop, format_task, hoursRepr, localize, h4]
  exact ⟨⟨hok, rfl, rfl⟩,
    c8_amended utcOnly zeroHoursEntry "UTC" none 1 _ hok 0 ⟨0, "Z"⟩ _ rfl rfl⟩

/-- C9: for every entry, an unresolvable timezone identifier makes
create_events fail with the timezone lookup error, which the code raises
before any event construction, so no events are emitted. -/
theorem c9_unknown_timezone (tzdb : TZDB) (entry : ScheduleEntry)
    (tzs : String) (dflt : Option String) (buf : ℚ)
    (h : tzdb tzs = none) :
    create_events tzdb entry tzs dflt buf = .error (.unknownTimeZone tzs) := by
  simp [create_events, h]

theorem c9_unknown_timezone_witness :
    utcOnly "Mars/Olympus" = none ∧
    create_events utcOnly scenarioAEntry "Mars/Olympus" none (1/2) =
      .error (.unknownTimeZone "Mars/Olympus") :=
  ⟨by decide,
    c9_unknown_timezone utcOnly scenarioAEntry "Mars/Olympus" none (1/2) (by decide)⟩

/-- C10: a present but empty start_time is treated exactly as an absent
one, because resolution tests truthiness rather than presence: the
default is used, and an absent or empty default falls back to 09:00. -/
theorem c10_empty_start_time (tzdb : TZDB) (entry : ScheduleEntry)
    (tzs : String) (dflt : Option String) (buf : ℚ)
    (h : entry.start_time = some "") :
    create_events tzdb entry tzs dflt buf =
      create_events tzdb ⟨entry.date, entry.phase, none, entry.tasks⟩ tzs dflt buf ∧
    (∀ d : String, d ≠ "" → resolveStartTime entry.start_time (some d) = d) ∧
    resolveStartTime entry.start_time none = "09:00" ∧
    resolveStartTime entry.start_time (some "") = "09:00" := by
  have hres : ∀ d : Option String,
      resolveStartTime (some "") d = resolveStartTime none d := by
    intro d; cases d <;> rfl
  refine ⟨?_, ?_, ?_, ?_⟩
  · simp [create_events, h, hres]
  · intro d hd; rw [h, hres]; simp [resolveStartTime, pyOr, pyTruthy, hd]
  · rw [h, hres]; rfl
  · rw [h, hres]; rfl

theorem c10_empty_start_time_witness :
    c10Entry.start_time = some "" ∧
    (create_events utcOnly c10Entry "UTC" (some "10:00") 1 =
        create_events utcOnly ⟨c10Entry.date, c10Entry.phase, none, c10Entry.tasks⟩
          "UTC" (some "10:00") 1 ∧
      (∀ d : String, d ≠ "" → resolveStartTime c10Entry.start_time (some d) = d) ∧
      resolveStartTime c10Entry.start_time none = "09:00" ∧
      resolveStartTime c10Entry.start_time (some "") = "09:00") :=
  ⟨rfl, c10_empty_start_time utcOnly c10Entry "UTC" (some "10:00") 1 rfl⟩

end Calenderizer
